import Mathlib

/-!
Verification development for the SPOOKIO backend (src/server.js): a shallow
embedding of the real-time presence and fan-out messaging core — the JSON
record store (readData/writeData), the presence table (connectedUsers Map),
the Socket.IO event handlers, and the HTTP endpoints that feed the core.

Modelling conventions:
- JS objects become structures; fields a code path can leave `undefined`
  (e.g. `socket.userId` before any user-join, or destructured payload
  fields) become `Option`.
- `generateId()` (time + randomness) and `new Date()` are passed in as
  explicit `newId : String` / `now : Nat` arguments.
- `writeData` either succeeds or fails (disk error); the caller in the
  source ignores the returned Boolean. Handlers therefore take a
  `w : Bool` write-outcome argument: the durable collection is updated only
  when `w = true`, while response and emits are computed from the in-memory
  value either way, exactly as in the source.
- JS `Map` semantics (insertion order, set replaces, delete removes) are
  given by an association list with `mapSet`/`mapGet`/`mapDelete`.
- JS string falsiness (`!s` true for undefined, null, "") is `jsFalsy`;
  `a || b` on strings is `jsOr`.
-/

namespace SpokioBackend

/-- The `reactions` object of a group message (server.js lines 1162-1167 and 1622). -/
structure Reactions where
  thumbsUp : Nat
  thumbsDown : Nat
  heart : Nat
  laugh : Nat
deriving DecidableEq, Repr

def zeroReactions : Reactions := ⟨0, 0, 0, 0⟩

/-- A group message record as persisted to the messages collection
(server.js lines 1156-1170 and 1616-1625). `groupId`, `userId` and `content`
are `Option` because the real-time handler stores whatever the payload and
`socket.userId` hold, including `undefined`. -/
structure GroupMessage where
  id : String
  groupId : Option String
  userId : Option String
  content : Option String
  messageType : String
  reactions : Reactions
  isEdited : Bool
  createdAt : Nat
deriving DecidableEq, Repr

/-- A group record (server.js lines 967-982). -/
structure Group where
  id : String
  name : String
  description : String
  category : String
  language : String
  members : List String
  moderators : List String
  creator : String
  icon : String
  isPublic : Bool
  memberCount : Nat
  messageCount : Nat
  createdAt : Nat
deriving DecidableEq, Repr

/-- An emergency alert record (server.js lines 1264-1277). `location` is an
arbitrary JSON value in the source; it is kept as an opaque `String`, with
`"\x7b\x7d"` standing for the empty-object default of `location || \x7b\x7d`. -/
structure EmergencyAlert where
  id : String
  userId : String
  status : String
  location : String
  message : String
  severity : String
  notes : String
  createdAt : Nat
  resolvedAt : Option Nat
  cancelledAt : Option Nat
deriving DecidableEq, Repr

/-- A direct message record (server.js lines 1488-1495). -/
structure DirectMessage where
  id : String
  sender : String
  recipient : String
  content : String
  isRead : Bool
  createdAt : Nat
deriving DecidableEq, Repr

/-- The slice of a user record the core consults (id, username,
profile.name) after `authMiddleware` has resolved the caller. -/
structure User where
  id : String
  username : String
  name : String
deriving DecidableEq, Repr

/-- A Socket.IO connection: the socket id and the `socket.userId` property,
which is `none` until a `user-join` event binds an identity
(server.js line 1589). -/
structure Socket where
  id : String
  userId : Option String
deriving DecidableEq, Repr

/-- The durable JSON collections plus the in-process `connectedUsers` Map
(server.js line 1581), which maps a user id to a socket id. -/
structure ServerState where
  users : List User
  groups : List Group
  messages : List GroupMessage
  directMessages : List DirectMessage
  emergency : List EmergencyAlert
  connectedUsers : List (String × String)
deriving DecidableEq, Repr

/-- Everything the server sends out over Socket.IO, one constructor per
distinct emit site and payload shape in the source. -/
inductive Emit where
  /-- `io.to(group-...).emit('new-message', ...)` from the HTTP route: the
  persisted message decorated with the sender's user info (lines 1186-1195). -/
  | newMessage (topic : String) (msg : GroupMessage) (user : Option User)
  /-- `io.to(group-...).emit('new-message', ...)` from the real-time handler:
  the bare persisted message, no user decoration (lines 1630-1633). -/
  | newMessageRaw (topic : String) (msg : GroupMessage)
  /-- `io.emit('user-status', ...)` (lines 1591-1595 and 1686-1690). -/
  | userStatus (userId : String) (status : String) (totalOnline : Nat)
  /-- `io.emit('emergency-broadcast', ...)` from the HTTP route (lines 1283-1290). -/
  | emergencyBroadcast (userId : String) (userName : String)
      (location : Option String) (message : Option String) (emergencyId : String)
  /-- `io.emit('emergency-broadcast', ...)` from the real-time handler (lines 1658-1663). -/
  | emergencyBroadcastRaw (userId : Option String)
      (location : Option String) (message : Option String)
  /-- `io.to(socket).emit('new-direct-message', ...)` from the HTTP route (lines 1503-1508). -/
  | newDirectMessage (toSocketId : String) (senderId : String)
      (senderName : String) (content : String)
  /-- `io.to(socket).emit('new-direct-message', ...)` from the real-time handler (lines 1672-1676). -/
  | newDirectMessageRaw (toSocketId : String) (senderId : Option String)
      (content : Option String)
  /-- `socket.emit('error', ...)` back to the originating socket (line 1635). -/
  | errorToSocket (socketId : String) (message : String)
deriving DecidableEq, Repr

/-- An HTTP response, reduced to the status code and the `success` flag. -/
structure HttpResponse where
  status : Nat
  success : Bool
deriving DecidableEq, Repr

/-! ### JS Map and truthiness helpers -/

/-- `Map.prototype.get`: the value of the first (only) entry with this key. -/
def mapGet (m : List (String × String)) (k : String) : Option String :=
  (m.find? (fun p => p.1 == k)).map (fun p => p.2)

/-- `Map.prototype.set`: replace the value if the key is present, otherwise
append a new entry (insertion order preserved, never a duplicate key). -/
def mapSet (m : List (String × String)) (k v : String) : List (String × String) :=
  if m.any (fun p => p.1 == k) then
    m.map (fun p => if p.1 == k then (k, v) else p)
  else m ++ [(k, v)]

/-- `Map.prototype.delete`: drop every entry with this key. -/
def mapDelete (m : List (String × String)) (k : String) : List (String × String) :=
  m.filter (fun p => p.1 != k)

/-- JS falsiness of a possibly-absent string: `!x` is true for `undefined`,
`null` and `""`. -/
def jsFalsy (o : Option String) : Bool :=
  match o with
  | none => true
  | some s => s == ""

/-- JS `x || d` on a possibly-absent string. -/
def jsOr (o : Option String) (d : String) : String :=
  match o with
  | none => d
  | some s => if s == "" then d else s

/-- In-place mutation of the first matching array element, as
`arr[arr.findIndex(p)] = f(...)` does in the source. -/
def updateFirst {A : Type} (p : A → Bool) (f : A → A) : List A → List A
  | [] => []
  | a :: as => if p a then f a :: as else a :: updateFirst p f as

/-! ### Socket.IO handlers (server.js lines 1581-1697) -/

/-- `socket.on('user-join')` (lines 1587-1598): `connectedUsers.set(userId,
socket.id)`, bind `socket.userId`, broadcast online status with the updated
total. Returns the new state, the updated socket, and the emits. -/
def userJoin (st : ServerState) (sock : Socket) (userId : String) :
    ServerState × Socket × List Emit :=
  let cu := mapSet st.connectedUsers userId sock.id
  ({ st with connectedUsers := cu },
   { sock with userId := some userId },
   [Emit.userStatus userId "online" cu.length])

/-- `socket.on('disconnect')` (lines 1681-1692): `if (socket.userId)` is a
JS truthiness check — false for an unbound identity and for the empty
string — and when it passes, that identity's presence entry is deleted
(whatever socket it currently maps to) and offline status is broadcast. -/
def disconnectHandler (st : ServerState) (sock : Socket) :
    ServerState × List Emit :=
  if jsFalsy sock.userId then (st, [])
  else
    let u := sock.userId.getD ""
    let cu := mapDelete st.connectedUsers u
    ({ st with connectedUsers := cu },
     [Emit.userStatus u "offline" cu.length])

/-- `socket.on('send-group-message')` (lines 1611-1637): no membership
check, no identity check, no content check — read the messages collection,
append a record built from whatever the payload and `socket.userId` hold,
write it back, and broadcast `new-message` to the group topic. `w` is the
outcome of `writeData` (ignored by the handler). -/
def sendGroupMessageRT (st : ServerState) (sock : Socket)
    (groupId content : Option String) (newId : String) (now : Nat) (w : Bool) :
    ServerState × List Emit :=
  let newMsg : GroupMessage :=
    { id := newId, groupId := groupId, userId := sock.userId, content := content,
      messageType := "text", reactions := zeroReactions, isEdited := false,
      createdAt := now }
  let messages := st.messages ++ [newMsg]
  ({ st with messages := if w then messages else st.messages },
   [Emit.newMessageRaw ("group-" ++ groupId.getD "undefined") newMsg])

/-- `socket.on('emergency-alert')` (lines 1657-1664): broadcast only —
nothing is read from or written to the record store. -/
def emergencyAlertRT (st : ServerState) (sock : Socket)
    (location message : Option String) : ServerState × List Emit :=
  (st, [Emit.emergencyBroadcastRaw sock.userId location message])

/-- `socket.on('direct-message')` (lines 1667-1678): resolve the recipient
in `connectedUsers`; if online, emit to their socket; nothing is persisted. -/
def directMessageRT (st : ServerState) (sock : Socket)
    (recipientId content : Option String) : ServerState × List Emit :=
  (st,
   match recipientId with
   | none => []
   | some r =>
     match mapGet st.connectedUsers r with
     | some sockId => [Emit.newDirectMessageRaw sockId sock.userId content]
     | none => [])

/-! ### HTTP routes feeding the core -/

/-- `POST /api/community/groups/:id/messages` (lines 1126-1208): validate
content, find the group, reject non-members with 403; then append the
message, write, bump the group's messageCount via a second write, and
broadcast the user-decorated message. `wMsg`/`wGrp` are the outcomes of the
two `writeData` calls (both ignored by the handler). -/
def sendGroupMessageHTTP (st : ServerState) (user : User) (groupIdParam : String)
    (content : Option String) (newId : String) (now : Nat) (wMsg wGrp : Bool) :
    ServerState × HttpResponse × List Emit :=
  if jsFalsy content then (st, ⟨400, false⟩, [])
  else
    match st.groups.find? (fun g => g.id == groupIdParam) with
    | none => (st, ⟨404, false⟩, [])
    | some group =>
      if group.members.contains user.id then
        let newMsg : GroupMessage :=
          { id := newId, groupId := some groupIdParam, userId := some user.id,
            content := content, messageType := "text",
            reactions := zeroReactions, isEdited := false, createdAt := now }
        let messages := st.messages ++ [newMsg]
        let st1 := { st with messages := if wMsg then messages else st.messages }
        let groups := updateFirst (fun g => g.id == groupIdParam)
          (fun g => { g with messageCount := g.messageCount + 1 }) st.groups
        let st2 := { st1 with groups := if wGrp then groups else st1.groups }
        let sender := st.users.find? (fun u => u.id == user.id)
        (st2, ⟨201, true⟩,
         [Emit.newMessage ("group-" ++ groupIdParam) newMsg sender])
      else (st, ⟨403, false⟩, [])

/-- `POST /api/emergency/alert` (lines 1258-1302): append an `active` alert
record, write, broadcast globally, respond 201. -/
def createAlertHTTP (st : ServerState) (user : User)
    (message location severity : Option String) (newId : String) (now : Nat)
    (w : Bool) : ServerState × HttpResponse × List Emit :=
  let newAlert : EmergencyAlert :=
    { id := newId, userId := user.id, status := "active",
      location := location.getD "\x7b\x7d", message := message.getD "",
      severity := jsOr severity "high", notes := "", createdAt := now,
      resolvedAt := none, cancelledAt := none }
  let emergency := st.emergency ++ [newAlert]
  ({ st with emergency := if w then emergency else st.emergency },
   ⟨201, true⟩,
   [Emit.emergencyBroadcast user.id (jsOr (some user.name) user.username)
     location message newId])

/-- `POST /api/emergency/alerts/:id/resolve` (lines 1365-1392): any
authenticated caller; find the alert by id only (no ownership check), set
status `resolved`, stamp `resolvedAt`, write. -/
def resolveAlert (st : ServerState) (_user : User) (alertId : String)
    (now : Nat) (w : Bool) : ServerState × HttpResponse :=
  if st.emergency.any (fun a => a.id == alertId) then
    let alerts := updateFirst (fun a => a.id == alertId)
      (fun a => { a with status := "resolved", resolvedAt := some now })
      st.emergency
    ({ st with emergency := if w then alerts else st.emergency }, ⟨200, true⟩)
  else (st, ⟨404, false⟩)

/-- `POST /api/emergency/alerts/:id/cancel` (lines 1395-1422): 404 unless
the alert exists and is owned by the caller; otherwise set status
`cancelled`, stamp `cancelledAt`, write. -/
def cancelAlert (st : ServerState) (user : User) (alertId : String)
    (now : Nat) (w : Bool) : ServerState × HttpResponse :=
  match st.emergency.find? (fun a => a.id == alertId) with
  | none => (st, ⟨404, false⟩)
  | some a =>
    if a.userId == user.id then
      let alerts := updateFirst (fun x => x.id == alertId)
        (fun x => { x with status := "cancelled", cancelledAt := some now })
        st.emergency
      ({ st with emergency := if w then alerts else st.emergency }, ⟨200, true⟩)
    else (st, ⟨404, false⟩)

/-- `POST /api/messages/send` (lines 1475-1522): validate recipient and
content, append the direct-message record, write, and if the recipient is
in `connectedUsers` emit `new-direct-message` to their socket. -/
def sendDirectMessageHTTP (st : ServerState) (user : User)
    (recipientId content : Option String) (newId : String) (now : Nat)
    (w : Bool) : ServerState × HttpResponse × List Emit :=
  if jsFalsy recipientId || jsFalsy content then (st, ⟨400, false⟩, [])
  else
    let r := recipientId.getD ""
    let c := content.getD ""
    let newMsg : DirectMessage :=
      { id := newId, sender := user.id, recipient := r, content := c,
        isRead := false, createdAt := now }
    let dms := st.directMessages ++ [newMsg]
    let emits := match mapGet st.connectedUsers r with
      | some sockId => [Emit.newDirectMessage sockId user.id user.name c]
      | none => []
    ({ st with directMessages := if w then dms else st.directMessages },
     ⟨201, true⟩, emits)

/-! ### The unsynchronized read-modify-write append, split into phases

`readData` materializes the whole collection; the handler appends locally;
`writeData` rewrites the whole file (lines 94-112, used at 1614/1628).
To express schedules of two concurrent appends, the load and save phases
are separated here. -/

/-- The load phase: `readData` returns a snapshot of the durable collection. -/
def appendLoad (durable : List GroupMessage) : List GroupMessage := durable

/-- The save phase: the local snapshot plus the pushed record replaces the
entire durable collection (`writeData` writes the full array). -/
def appendSave (snapshot : List GroupMessage) (m : GroupMessage) :
    List GroupMessage := snapshot ++ [m]

/-- Two appends whose load→save cycles do not interleave: the second loads
the first's saved value. Returns the final durable collection and the two
`writeData` outcomes (both succeed). -/
def seqTwoAppends (init : List GroupMessage) (m1 m2 : GroupMessage) :
    List GroupMessage × Bool × Bool :=
  let d1 := appendSave (appendLoad init) m1
  let d2 := appendSave (appendLoad d1) m2
  (d2, true, true)

/-- Two appends scheduled load₁, load₂, save₁, save₂: both load the initial
collection before either saves, so the second save — a rewrite of the whole
file — overwrites the first's append. Both `writeData` calls still succeed. -/
def interleavedTwoAppends (init : List GroupMessage) (m1 m2 : GroupMessage) :
    List GroupMessage × Bool × Bool :=
  let snap1 := appendLoad init
  let snap2 := appendLoad init
  let _d1 := appendSave snap1 m1
  (appendSave snap2 m2, true, true)

/-! ### Concrete fixtures shared by witnesses and counterexamples -/

/-- A server state with no records and no connections. -/
def emptyState : ServerState :=
  { users := [], groups := [], messages := [], directMessages := [],
    emergency := [], connectedUsers := [] }

/-- A group `g1` whose only member is `alice`. -/
def demoGroup : Group :=
  { id := "g1", name := "General", description := "", category := "general",
    language := "en-US", members := ["alice"], moderators := ["alice"],
    creator := "alice", icon := "", isPublic := true, memberCount := 1,
    messageCount := 0, createdAt := 0 }

/-- A state holding just `demoGroup`. -/
def demoState : ServerState := { emptyState with groups := [demoGroup] }

def aliceUser : User := { id := "alice", username := "alice", name := "Alice" }

def bobUser : User := { id := "bob", username := "bob", name := "Bob" }

/-! ### Lemmas about the JS Map model -/

theorem mapSet_cons_ne (p : String × String) (ps : List (String × String))
    (k v : String) (h : (p.1 == k) = false) :
    mapSet (p :: ps) k v = p :: mapSet ps k v := by
  have hne : p.1 ≠ k := by simpa using h
  unfold mapSet
  by_cases hps : (ps.any fun q => q.1 == k) = true
  · simp [List.any_cons, h, hps, hne]
  · simp [List.any_cons, h, hps]

theorem mapGet_cons (p : String × String) (ps : List (String × String))
    (k : String) :
    mapGet (p :: ps) k = if p.1 == k then some p.2 else mapGet ps k := by
  unfold mapGet
  by_cases h : (p.1 == k) = true
  · simp [List.find?_cons, h]
  · simp [List.find?_cons, h]

theorem mapGet_mapSet_self (m : List (String × String)) (k v : String) :
    mapGet (mapSet m k v) k = some v := by
  induction m with
  | nil => simp [mapGet, mapSet]
  | cons p ps ih =>
    by_cases h : (p.1 == k) = true
    · have hany : ((p :: ps).any fun q => q.1 == k) = true := by
        simp [List.any_cons, h]
      unfold mapSet
      rw [if_pos hany, List.map_cons, if_pos h, mapGet_cons]
      simp
    · rw [mapSet_cons_ne p ps k v (by simpa using h), mapGet_cons, if_neg h]
      exact ih

theorem mapGet_mapDelete_self (m : List (String × String)) (k : String) :
    mapGet (mapDelete m k) k = none := by
  induction m with
  | nil => simp [mapGet, mapDelete]
  | cons p ps ih =>
    unfold mapDelete at ih ⊢
    simp only [bne] at ih ⊢
    rw [List.filter_cons]
    by_cases h : (p.1 == k) = true
    · simp [h, ih]
    · have hf : (p.1 == k) = false := by simpa using h
      simp [hf, mapGet_cons, ih]

theorem keys_mapSet (m : List (String × String)) (k v : String) :
    (mapSet m k v).map Prod.fst =
      if m.any (fun p => p.1 == k) then m.map Prod.fst
      else m.map Prod.fst ++ [k] := by
  unfold mapSet
  by_cases h : (m.any fun p => p.1 == k) = true
  · rw [if_pos h, if_pos h, List.map_map]
    apply List.map_congr_left
    intro p _
    by_cases hp : (p.1 == k) = true
    · have hpk : p.1 = k := by simpa using hp
      simp [Function.comp, hp, hpk]
    · simp [Function.comp, hp]
  · rw [if_neg h, if_neg h]
    simp

theorem nodup_keys_mapSet (m : List (String × String)) (k v : String)
    (h : (m.map Prod.fst).Nodup) : ((mapSet m k v).map Prod.fst).Nodup := by
  rw [keys_mapSet]
  by_cases hany : (m.any fun p => p.1 == k) = true
  · simpa [hany] using h
  · have hk : k ∉ m.map Prod.fst := by
      intro hmem
      rcases List.mem_map.mp hmem with ⟨p, hp, hpk⟩
      exact hany (List.any_eq_true.mpr ⟨p, hp, by simp [hpk]⟩)
    rw [if_neg hany]
    simp [List.nodup_append, h, hk]

/-- An alert `e1` owned by `alice`, still active. -/
def demoAlert : EmergencyAlert :=
  { id := "e1", userId := "alice", status := "active", location := "\x7b\x7d",
    message := "help", severity := "high", notes := "", createdAt := 0,
    resolvedAt := none, cancelledAt := none }

/-- A state holding just `demoAlert`. -/
def alertState : ServerState := { emptyState with emergency := [demoAlert] }

/-- `demoAlert` after reaching the terminal state `resolved`. -/
def resolvedAlert : EmergencyAlert :=
  { demoAlert with status := "resolved", resolvedAt := some 1 }

/-- A state holding just `resolvedAlert`. -/
def resolvedState : ServerState := { emptyState with emergency := [resolvedAlert] }

/-! ### A lemma about in-place mutation of the first match -/

theorem find?_updateFirst {A : Type} (p : A → Bool) (f : A → A) (l : List A)
    (a : A) (h : l.find? p = some a) (hp : p (f a) = true) :
    (updateFirst p f l).find? p = some (f a) := by
  induction l with
  | nil => simp at h
  | cons x xs ih =>
    by_cases hx : p x = true
    · rw [List.find?_cons_of_pos _ hx] at h
      obtain rfl : x = a := Option.some.inj h
      unfold updateFirst
      rw [if_pos hx, List.find?_cons_of_pos _ hp]
    · rw [List.find?_cons_of_neg _ hx] at h
      unfold updateFirst
      rw [if_neg hx, List.find?_cons_of_neg _ hx]
      exact ih h

/-! ### Claim theorems -/

/-- Claim C7: after `announce(u, c1)` then `announce(u, c2)` (two `user-join`
events for the same identity), resolving `u` in the presence table yields
`c2`'s socket id and never `c1`'s; a second announce replaces the prior entry
rather than merging, and the table keeps at most one entry per user identity
(duplicate-free keys are preserved). -/
theorem announce_replaces (st : ServerState) (u : String) (s1 s2 : Socket)
    (hne : s1.id ≠ s2.id) :
    mapGet ((userJoin ((userJoin st s1 u).1) s2 u).1).connectedUsers u
        = some s2.id ∧
      mapGet ((userJoin ((userJoin st s1 u).1) s2 u).1).connectedUsers u
        ≠ some s1.id ∧
      ((st.connectedUsers.map Prod.fst).Nodup →
        (((userJoin ((userJoin st s1 u).1) s2 u).1).connectedUsers.map
          Prod.fst).Nodup) := by
  have hget : mapGet ((userJoin ((userJoin st s1 u).1) s2 u).1).connectedUsers u
      = some s2.id := by
    simp only [userJoin]
    exact mapGet_mapSet_self _ u s2.id
  refine ⟨hget, ?_, ?_⟩
  · rw [hget]
    intro hcontra
    exact hne (Option.some.inj hcontra).symm
  · intro hnd
    simp only [userJoin]
    exact nodup_keys_mapSet _ u s2.id (nodup_keys_mapSet _ u s1.id hnd)

/-- Witness for C7 at a concrete input: sockets `s1`, `s2`, identity
`alice`, starting from the empty state. -/
theorem announce_replaces_witness :
    ("s1" : String) ≠ "s2" ∧
      mapGet ((userJoin ((userJoin emptyState ⟨"s1", none⟩ "alice").1)
        ⟨"s2", none⟩ "alice").1).connectedUsers "alice" = some "s2" :=
  ⟨by decide,
   (announce_replaces emptyState "alice" ⟨"s1", none⟩ ⟨"s2", none⟩
     (by decide)).1⟩

/-- Claim C8: after a user with a (truthy, i.e. non-empty) identity `u`
announces on `c1` and then on `c2`, `u`'s current entry resolves to `c2`;
yet a disconnect of the stale socket `c1` (whose `socket.userId` is still
bound to `u`) deletes `u`'s presence entry entirely and broadcasts an
offline status, even though `c2` was the current connection and is still
connected. -/
theorem stale_disconnect_removes_presence (st : ServerState) (u : String)
    (s1 s2 : Socket) (hu : u ≠ "") :
    mapGet ((userJoin ((userJoin st s1 u).1) s2 u).1).connectedUsers u
        = some s2.id ∧
      mapGet ((disconnectHandler ((userJoin ((userJoin st s1 u).1) s2 u).1)
        ((userJoin st s1 u).2.1)).1).connectedUsers u = none ∧
      (disconnectHandler ((userJoin ((userJoin st s1 u).1) s2 u).1)
          ((userJoin st s1 u).2.1)).2 =
        [Emit.userStatus u "offline"
          (mapDelete ((userJoin ((userJoin st s1 u).1) s2 u).1).connectedUsers
            u).length] := by
  have hf : jsFalsy (some u) = false := by simp [jsFalsy, hu]
  refine ⟨?_, ?_, ?_⟩
  · simp only [userJoin]
    exact mapGet_mapSet_self _ u s2.id
  · simp only [userJoin, disconnectHandler, hf, Bool.false_eq_true, if_false]
    exact mapGet_mapDelete_self _ u
  · simp only [userJoin, disconnectHandler, hf, Bool.false_eq_true, if_false]
    rfl

/-- Witness for C8: identity `alice` (non-empty) joins on socket `s1`, then
on socket `s2`; disconnecting stale `s1` leaves no presence entry for
`alice`. -/
theorem stale_disconnect_witness :
    ("alice" : String) ≠ "" ∧
      mapGet ((disconnectHandler
        ((userJoin ((userJoin emptyState ⟨"s1", none⟩ "alice").1)
          ⟨"s2", none⟩ "alice").1)
        ((userJoin emptyState ⟨"s1", none⟩ "alice").2.1)).1).connectedUsers
        "alice" = none :=
  ⟨by decide,
   (stale_disconnect_removes_presence emptyState "alice" ⟨"s1", none⟩
     ⟨"s2", none⟩ (by decide)).2.1⟩

/-- What the group-message HTTP route does on its success path, for any
outcome of its two `writeData` calls: appends the message when the first
write lands, bumps the group's count when the second does, and always
answers 201 and broadcasts. Shared scaffolding for several claim theorems. -/
theorem sendGroupMessageHTTP_success_eq (st : ServerState) (user : User)
    (gid : String) (content : Option String) (nid : String) (now : Nat)
    (wMsg wGrp : Bool) (g : Group)
    (hc : jsFalsy content = false)
    (hfind : st.groups.find? (fun x => x.id == gid) = some g)
    (hmem : g.members.contains user.id = true) :
    sendGroupMessageHTTP st user gid content nid now wMsg wGrp =
      ({ st with
          messages := (if wMsg then st.messages ++
            [⟨nid, some gid, some user.id, content, "text", zeroReactions,
              false, now⟩] else st.messages),
          groups := (if wGrp then (updateFirst (fun x => x.id == gid)
            (fun x => { x with messageCount := x.messageCount + 1 }) st.groups)
            else st.groups) },
       ⟨201, true⟩,
       [Emit.newMessage ("group-" ++ gid)
         ⟨nid, some gid, some user.id, content, "text", zeroReactions, false,
           now⟩
         (st.users.find? (fun u => u.id == user.id))]) := by
  unfold sendGroupMessageHTTP
  rw [hc, hfind]
  have hmem' : user.id ∈ g.members := by simpa using hmem
  simp [hmem, hmem']

/-- Claim C9: resolving an emergency alert succeeds for every authenticated
caller and every existing alert id — no ownership check — and stores status
`resolved`; cancelling answers 404 unless the caller's user id equals the
alert's user id, and stores status `cancelled` when it does. -/
theorem resolve_any_caller_cancel_owner_only (st : ServerState) (user : User)
    (aid : String) (now : Nat) (a : EmergencyAlert)
    (hfind : st.emergency.find? (fun x => x.id == aid) = some a) :
    resolveAlert st user aid now true =
        ({ st with emergency := (updateFirst (fun x => x.id == aid)
            (fun x => { x with status := "resolved", resolvedAt := some now })
            st.emergency) }, ⟨200, true⟩) ∧
      ((resolveAlert st user aid now true).1.emergency.find?
          (fun x => x.id == aid) =
        some { a with status := "resolved", resolvedAt := some now }) ∧
      (a.userId ≠ user.id →
        cancelAlert st user aid now true = (st, ⟨404, false⟩)) ∧
      (a.userId = user.id →
        cancelAlert st user aid now true =
          ({ st with emergency := (updateFirst (fun x => x.id == aid)
              (fun x => { x with status := "cancelled", cancelledAt := some now })
              st.emergency) }, ⟨200, true⟩)) := by
  have hpa : (a.id == aid) = true := by simpa using List.find?_some hfind
  have hany : (st.emergency.any fun x => x.id == aid) = true :=
    List.any_eq_true.mpr ⟨a, List.mem_of_find?_eq_some hfind, hpa⟩
  have hres : resolveAlert st user aid now true =
      ({ st with emergency := (updateFirst (fun x => x.id == aid)
          (fun x => { x with status := "resolved", resolvedAt := some now })
          st.emergency) }, ⟨200, true⟩) := by
    unfold resolveAlert
    rw [if_pos hany]
    rfl
  refine ⟨hres, ?_, ?_, ?_⟩
  · rw [hres]
    exact find?_updateFirst _ _ _ a hfind hpa
  · intro hne
    unfold cancelAlert
    rw [hfind]
    have : (a.userId == user.id) = false := by simpa using hne
    simp [this]
  · intro heq
    unfold cancelAlert
    rw [hfind]
    have : (a.userId == user.id) = true := by simpa using heq
    simp [this]

/-- Witness for C9: `bob`, who does not own alert `e1`, resolves it anyway;
`bob`'s cancel attempt is answered 404. -/
theorem resolve_any_caller_witness :
    alertState.emergency.find? (fun x => x.id == "e1") = some demoAlert ∧
      ((resolveAlert alertState bobUser "e1" 5 true).1.emergency.find?
          (fun x => x.id == "e1") =
        some { demoAlert with status := "resolved", resolvedAt := some 5 }) ∧
      cancelAlert alertState bobUser "e1" 5 true = (alertState, ⟨404, false⟩) :=
  ⟨rfl,
   (resolve_any_caller_cancel_owner_only alertState bobUser "e1" 5 demoAlert
     rfl).2.1,
   (resolve_any_caller_cancel_owner_only alertState bobUser "e1" 5 demoAlert
     rfl).2.2.1 (by decide)⟩

/-- Claim C10: the real-time send-group-message handler checks nothing: for
every inbound payload — in particular a socket that never announced presence
(`sock.userId = none`) and a missing content field — a record holding
exactly the given (possibly absent) author id and content is appended to
the messages collection and broadcast to the group topic. -/
theorem realtime_send_no_checks (st : ServerState) (sock : Socket)
    (gid c : Option String) (nid : String) (now : Nat) :
    (sendGroupMessageRT st sock gid c nid now true).1.messages =
        st.messages ++
          [⟨nid, gid, sock.userId, c, "text", zeroReactions, false, now⟩] ∧
      (sendGroupMessageRT st sock gid c nid now true).2 =
        [Emit.newMessageRaw ("group-" ++ gid.getD "undefined")
          ⟨nid, gid, sock.userId, c, "text", zeroReactions, false, now⟩] :=
  ⟨rfl, rfl⟩

/-- Counterexample to claim C4: alert `e1` is in the terminal state
`resolved`, yet its owner's cancel request is answered 200 and rewrites the
stored status to `cancelled` — a transition out of a terminal state. -/
theorem cancel_escapes_resolved :
    resolvedAlert.status = "resolved" ∧
      (cancelAlert resolvedState aliceUser "e1" 2 true).1.emergency.map
          (fun a => a.status) = ["cancelled"] ∧
      (cancelAlert resolvedState aliceUser "e1" 2 true).2 = ⟨200, true⟩ := by
  refine ⟨rfl, ?_, ?_⟩ <;> rfl

/-- Claim C4 as amended: neither endpoint inspects the current status.
Resolve rewrites any existing alert to `resolved`, and an owner's cancel
rewrites it to `cancelled`, whatever status it had — including the
supposedly terminal `resolved` and `cancelled`. -/
theorem alert_terminal_states_not_enforced (st : ServerState) (user : User)
    (aid : String) (now : Nat) (a : EmergencyAlert)
    (hfind : st.emergency.find? (fun x => x.id == aid) = some a)
    (hown : a.userId = user.id) :
    ((resolveAlert st user aid now true).1.emergency.find?
        (fun x => x.id == aid) =
      some { a with status := "resolved", resolvedAt := some now }) ∧
      ((cancelAlert st user aid now true).1.emergency.find?
          (fun x => x.id == aid) =
        some { a with status := "cancelled", cancelledAt := some now }) := by
  have hpa : (a.id == aid) = true := by simpa using List.find?_some hfind
  have hany : (st.emergency.any fun x => x.id == aid) = true :=
    List.any_eq_true.mpr ⟨a, List.mem_of_find?_eq_some hfind, hpa⟩
  constructor
  · unfold resolveAlert
    rw [if_pos hany]
    exact find?_updateFirst _ _ _ a hfind hpa
  · unfold cancelAlert
    rw [hfind]
    have hu : (a.userId == user.id) = true := by simpa using hown
    simp only [hu, if_pos]
    exact find?_updateFirst _ _ _ a hfind hpa

/-- Witness for C4 (amended) at a concrete input: the owner resolves and
cancels the already-resolved alert `e1`; both overwrite the status. -/
theorem alert_terminal_witness :
    resolvedState.emergency.find? (fun x => x.id == "e1") = some resolvedAlert ∧
      resolvedAlert.userId = aliceUser.id ∧
      ((cancelAlert resolvedState aliceUser "e1" 2 true).1.emergency.find?
          (fun x => x.id == "e1") =
        some { resolvedAlert with status := "cancelled", cancelledAt := some 2 }) :=
  ⟨rfl, rfl,
   (alert_terminal_states_not_enforced resolvedState aliceUser "e1" 2
     resolvedAlert rfl rfl).2⟩

/-- Concrete messages for the lost-update schedule. -/
def msgA : GroupMessage :=
  ⟨"a", some "g1", some "alice", some "one", "text", zeroReactions, false, 0⟩

def msgB : GroupMessage :=
  ⟨"b", some "g1", some "bob", some "two", "text", zeroReactions, false, 0⟩

/-- Claim C3: two appends against the same collection, both `writeData`
calls succeeding, scheduled so that both load before either saves: the
final collection holds one record, not two — the first append is lost to
the interleaved load→save cycle, exactly what the claim rules out. The
non-interleaved schedule keeps both. -/
theorem interleaved_appends_lose_update :
    interleavedTwoAppends [] msgA msgB = ([msgB], true, true) ∧
      (interleavedTwoAppends [] msgA msgB).1.length = 1 ∧
      seqTwoAppends [] msgA msgB = ([msgA, msgB], true, true) ∧
      (seqTwoAppends [] msgA msgB).1.length = 2 :=
  ⟨rfl, rfl, rfl, rfl⟩

/-- Counterexample to claim C1: `bob` is not a member of group `g1`, yet
the real-time send-group-message path persists his message (the collection
grows from 0 to 1 records) and broadcasts a `new-message` event to the
group topic — no authorization error, record persisted, broadcast sent. -/
theorem nonmember_realtime_send_persists :
    demoGroup.members.contains "bob" = false ∧
      (sendGroupMessageRT demoState ⟨"s9", some "bob"⟩ (some "g1") (some "hi")
        "m1" 3 true).1.messages.length = 1 ∧
      (sendGroupMessageRT demoState ⟨"s9", some "bob"⟩ (some "g1") (some "hi")
        "m1" 3 true).2.length = 1 :=
  ⟨rfl, rfl, rfl⟩

/-- Claim C1 as amended: only the HTTP path rejects a non-member sender —
403, state untouched, nothing broadcast. The real-time event path performs
no membership check at all: for any socket and content it appends a record
to the messages collection and broadcasts one `new-message` event. -/
theorem nonmember_rejected_http_only (st : ServerState) (user : User)
    (gid : String) (content : Option String) (nid : String) (now : Nat)
    (wMsg wGrp : Bool) (g : Group)
    (hc : jsFalsy content = false)
    (hfind : st.groups.find? (fun x => x.id == gid) = some g)
    (hmem : g.members.contains user.id = false) :
    sendGroupMessageHTTP st user gid content nid now wMsg wGrp =
        (st, ⟨403, false⟩, []) ∧
      ∀ (sock : Socket) (c2 : Option String),
        (sendGroupMessageRT st sock (some gid) c2 nid now true).1.messages.length
            = st.messages.length + 1 ∧
          (sendGroupMessageRT st sock (some gid) c2 nid now true).2.length = 1 := by
  constructor
  · unfold sendGroupMessageHTTP
    rw [hc, hfind]
    have hmem' : user.id ∉ g.members := by simpa using hmem
    simp [hmem, hmem']
  · intro sock c2
    constructor
    · simp [sendGroupMessageRT]
    · rfl

/-- Witness for C1 (amended): `bob` sends to `g1` over HTTP and is rejected
with 403, nothing persisted, nothing broadcast. -/
theorem nonmember_rejected_witness :
    jsFalsy (some "hi") = false ∧
      demoState.groups.find? (fun x => x.id == "g1") = some demoGroup ∧
      demoGroup.members.contains "bob" = false ∧
      sendGroupMessageHTTP demoState bobUser "g1" (some "hi") "m1" 0 true true
        = (demoState, ⟨403, false⟩, []) :=
  ⟨rfl, rfl, rfl,
   (nonmember_rejected_http_only demoState bobUser "g1" (some "hi") "m1" 0
     true true demoGroup rfl rfl rfl).1⟩

/-- Counterexample to claim C2: `alice` is a member of `g1` and successfully
sends a message over the real-time path — a record is appended and the
broadcast goes out — yet the groups collection is untouched, so `g1`'s
persisted message count does not increase by 1. -/
theorem realtime_send_skips_message_count :
    demoGroup.members.contains "alice" = true ∧
      (sendGroupMessageRT demoState ⟨"sA", some "alice"⟩ (some "g1")
        (some "hi") "m1" 3 true).1.messages.length = 1 ∧
      (sendGroupMessageRT demoState ⟨"sA", some "alice"⟩ (some "g1")
        (some "hi") "m1" 3 true).2.length = 1 ∧
      (sendGroupMessageRT demoState ⟨"sA", some "alice"⟩ (some "g1")
        (some "hi") "m1" 3 true).1.groups = demoState.groups ∧
      demoGroup.messageCount = 0 :=
  ⟨rfl, rfl, rfl, rfl, rfl⟩

/-- Claim C2 as amended: a message successfully sent by a member over the
HTTP path appends one record, increments the target group's persisted
message count by exactly 1, and publishes to the group topic; the real-time
path appends one record and publishes, but leaves the groups collection —
hence the persisted message count — unchanged. -/
theorem group_message_send_effects (st : ServerState) (user : User)
    (gid : String) (content : Option String) (nid : String) (now : Nat)
    (sock : Socket) (g : Group)
    (hc : jsFalsy content = false)
    (hfind : st.groups.find? (fun x => x.id == gid) = some g)
    (hmem : g.members.contains user.id = true)
    (hsock : sock.userId = some user.id) :
    ((sendGroupMessageHTTP st user gid content nid now true true).1.messages =
        st.messages ++ [⟨nid, some gid, some user.id, content, "text",
          zeroReactions, false, now⟩]) ∧
      ((sendGroupMessageHTTP st user gid content nid now true
          true).1.groups.find? (fun x => x.id == gid) =
        some { g with messageCount := g.messageCount + 1 }) ∧
      ((sendGroupMessageHTTP st user gid content nid now true true).2 =
        (⟨201, true⟩,
         [Emit.newMessage ("group-" ++ gid)
           ⟨nid, some gid, some user.id, content, "text", zeroReactions,
             false, now⟩
           (st.users.find? (fun u => u.id == user.id))])) ∧
      ((sendGroupMessageRT st sock (some gid) content nid now true).1.messages
        = st.messages ++ [⟨nid, some gid, some user.id, content, "text",
            zeroReactions, false, now⟩]) ∧
      ((sendGroupMessageRT st sock (some gid) content nid now true).1.groups
        = st.groups) ∧
      ((sendGroupMessageRT st sock (some gid) content nid now true).2 =
        [Emit.newMessageRaw ("group-" ++ gid)
          ⟨nid, some gid, some user.id, content, "text", zeroReactions,
            false, now⟩]) := by
  have hpg : (g.id == gid) = true := by simpa using List.find?_some hfind
  have heq := sendGroupMessageHTTP_success_eq st user gid content nid now
    true true g hc hfind hmem
  refine ⟨?_, ?_, ?_, ?_, ?_, ?_⟩
  · rw [heq]
    rfl
  · rw [heq]
    exact find?_updateFirst _ _ _ g hfind hpg
  · rw [heq]
  · simp [sendGroupMessageRT, hsock]
  · rfl
  · simp [sendGroupMessageRT, hsock]

/-- Witness for C2 (amended): `alice` sends "hi" to `g1` via HTTP; the
stored copy of `g1` has its message count at 1. -/
theorem group_message_send_witness :
    jsFalsy (some "hi") = false ∧
      demoState.groups.find? (fun x => x.id == "g1") = some demoGroup ∧
      demoGroup.members.contains "alice" = true ∧
      ((sendGroupMessageHTTP demoState aliceUser "g1" (some "hi") "m1" 0 true
          true).1.groups.find? (fun x => x.id == "g1") =
        some { demoGroup with messageCount := 1 }) :=
  ⟨rfl, rfl, rfl,
   (group_message_send_effects demoState aliceUser "g1" (some "hi") "m1" 0
     ⟨"sA", some "alice"⟩ demoGroup rfl rfl rfl rfl).2.1⟩

/-- Counterexample to claim C5: triggered from the real-time event path,
create-emergency-alert and send-direct-message leave every collection
unchanged — no record at all is persisted — while the same actions over
HTTP each append a record. The persisted-record shapes therefore differ
between the two entry paths. -/
theorem realtime_paths_persist_nothing :
    (emergencyAlertRT emptyState ⟨"sA", some "alice"⟩ none (some "help")).1
        = emptyState ∧
      (directMessageRT emptyState ⟨"sA", some "alice"⟩ (some "bob")
        (some "yo")).1 = emptyState ∧
      (createAlertHTTP emptyState aliceUser (some "help") none none "e1" 0
        true).1.emergency.length = 1 ∧
      (sendDirectMessageHTTP emptyState aliceUser (some "bob") (some "yo")
        "d1" 0 true).1.directMessages.length = 1 :=
  ⟨rfl, rfl, rfl, rfl⟩

/-- Claim C5 as amended: of the three dual-entry actions, only
send-group-message persists on both paths, and there the two records are
identical (same shape and same field values for the same inputs). Direct
messages and emergency alerts are persisted only by the HTTP route — the
real-time handlers return the state unchanged. -/
theorem dual_path_persistence (st : ServerState) (user : User) (gid : String)
    (content : Option String) (nid : String) (now : Nat) (sock : Socket)
    (g : Group)
    (hc : jsFalsy content = false)
    (hfind : st.groups.find? (fun x => x.id == gid) = some g)
    (hmem : g.members.contains user.id = true)
    (hsock : sock.userId = some user.id) :
    ((sendGroupMessageHTTP st user gid content nid now true true).1.messages =
        st.messages ++ [⟨nid, some gid, some user.id, content, "text",
          zeroReactions, false, now⟩]) ∧
      ((sendGroupMessageRT st sock (some gid) content nid now true).1.messages
        = st.messages ++ [⟨nid, some gid, some user.id, content, "text",
            zeroReactions, false, now⟩]) ∧
      (∀ loc m, (emergencyAlertRT st sock loc m).1 = st) ∧
      (∀ rid c, (directMessageRT st sock rid c).1 = st) ∧
      (∀ m loc sev,
        (createAlertHTTP st user m loc sev nid now true).1.emergency =
          st.emergency ++ [⟨nid, user.id, "active", loc.getD "\x7b\x7d",
            m.getD "", jsOr sev "high", "", now, none, none⟩]) ∧
      (∀ rid c, jsFalsy rid = false → jsFalsy c = false →
        (sendDirectMessageHTTP st user rid c nid now true).1.directMessages =
          st.directMessages ++ [⟨nid, user.id, rid.getD "", c.getD "", false,
            now⟩]) := by
  have heq := sendGroupMessageHTTP_success_eq st user gid content nid now
    true true g hc hfind hmem
  refine ⟨?_, ?_, ?_, ?_, ?_, ?_⟩
  · rw [heq]
    rfl
  · simp [sendGroupMessageRT, hsock]
  · intro loc m
    rfl
  · intro rid c
    rfl
  · intro m loc sev
    rfl
  · intro rid c hr hcc
    unfold sendDirectMessageHTTP
    rw [hr, hcc]
    rfl

/-- Witness for C5 (amended): `alice` sends "hi" to `g1` by both entry
paths; both persist the very same record. -/
theorem dual_path_persistence_witness :
    jsFalsy (some "hi") = false ∧
      demoState.groups.find? (fun x => x.id == "g1") = some demoGroup ∧
      demoGroup.members.contains "alice" = true ∧
      ((sendGroupMessageHTTP demoState aliceUser "g1" (some "hi") "m1" 0 true
          true).1.messages =
        demoState.messages ++ [⟨"m1", some "g1", some "alice", some "hi",
          "text", zeroReactions, false, 0⟩]) ∧
      ((sendGroupMessageRT demoState ⟨"sA", some "alice"⟩ (some "g1")
          (some "hi") "m1" 0 true).1.messages =
        demoState.messages ++ [⟨"m1", some "g1", some "alice", some "hi",
          "text", zeroReactions, false, 0⟩]) :=
  ⟨rfl, rfl, rfl,
   (dual_path_persistence demoState aliceUser "g1" (some "hi") "m1" 0
     ⟨"sA", some "alice"⟩ demoGroup rfl rfl rfl rfl).1,
   (dual_path_persistence demoState aliceUser "g1" (some "hi") "m1" 0
     ⟨"sA", some "alice"⟩ demoGroup rfl rfl rfl rfl).2.1⟩

/-- Claim C6: a failed `writeData` never changes what the caller or the
other sockets see. The group-message route's response and broadcasts are
the same for every write outcome; with both writes failing, the durable
state is untouched and yet the route answers 201 and broadcasts the
in-memory-only message. Likewise for the real-time send, alert creation,
direct-message sending, and alert resolve/cancel. -/
theorem write_failure_still_succeeds (st : ServerState) (user : User)
    (gid : String) (content : Option String) (nid : String) (now : Nat)
    (g : Group)
    (hc : jsFalsy content = false)
    (hfind : st.groups.find? (fun x => x.id == gid) = some g)
    (hmem : g.members.contains user.id = true) :
    (∀ wMsg wGrp : Bool,
      (sendGroupMessageHTTP st user gid content nid now wMsg wGrp).2 =
        (sendGroupMessageHTTP st user gid content nid now true true).2) ∧
      (sendGroupMessageHTTP st user gid content nid now false false =
        (st, ⟨201, true⟩,
         [Emit.newMessage ("group-" ++ gid)
           ⟨nid, some gid, some user.id, content, "text", zeroReactions,
             false, now⟩
           (st.users.find? (fun u => u.id == user.id))])) ∧
      (∀ (sock : Socket) (gid2 c : Option String),
        (sendGroupMessageRT st sock gid2 c nid now false).1 = st ∧
          (sendGroupMessageRT st sock gid2 c nid now false).2 =
            (sendGroupMessageRT st sock gid2 c nid now true).2) ∧
      (∀ (w : Bool) (m l s : Option String),
        (createAlertHTTP st user m l s nid now w).2 =
          (createAlertHTTP st user m l s nid now true).2) ∧
      (∀ (w : Bool) (rid c : Option String),
        (sendDirectMessageHTTP st user rid c nid now w).2 =
          (sendDirectMessageHTTP st user rid c nid now true).2) ∧
      (∀ (w : Bool) (aid : String),
        (resolveAlert st user aid now w).2 =
            (resolveAlert st user aid now true).2 ∧
          (cancelAlert st user aid now w).2 =
            (cancelAlert st user aid now true).2) := by
  refine ⟨?_, ?_, ?_, ?_, ?_, ?_⟩
  · intro wMsg wGrp
    rw [sendGroupMessageHTTP_success_eq st user gid content nid now wMsg wGrp
      g hc hfind hmem, sendGroupMessageHTTP_success_eq st user gid content
      nid now true true g hc hfind hmem]
  · rw [sendGroupMessageHTTP_success_eq st user gid content nid now false
      false g hc hfind hmem]
    rfl
  · intro sock gid2 c
    exact ⟨rfl, rfl⟩
  · intro w m l s
    rfl
  · intro w rid c
    by_cases h : (jsFalsy rid || jsFalsy c) = true
    · simp [sendDirectMessageHTTP, h]
    · have hf : (jsFalsy rid || jsFalsy c) = false := by simpa using h
      simp [sendDirectMessageHTTP, hf]
  · intro w aid
    constructor
    · by_cases h : (st.emergency.any fun x => x.id == aid) = true
      · simp [resolveAlert, h]
      · have hf : (st.emergency.any fun x => x.id == aid) = false := by
          simpa using h
        simp [resolveAlert, hf]
    · rcases hf : st.emergency.find? (fun x => x.id == aid) with _ | a
      · simp [cancelAlert, hf]
      · by_cases ho : (a.userId == user.id) = true
        · simp [cancelAlert, hf, ho]
        · have hof : (a.userId == user.id) = false := by simpa using ho
          simp [cancelAlert, hf, hof]

/-- Witness for C6: both writes of `alice`'s HTTP group message fail; the
durable state is exactly the starting state, yet the route answers 201 and
broadcasts the message. -/
theorem write_failure_witness :
    jsFalsy (some "hi") = false ∧
      demoState.groups.find? (fun x => x.id == "g1") = some demoGroup ∧
      demoGroup.members.contains "alice" = true ∧
      sendGroupMessageHTTP demoState aliceUser "g1" (some "hi") "m1" 0 false
          false =
        (demoState, ⟨201, true⟩,
         [Emit.newMessage "group-g1"
           ⟨"m1", some "g1", some "alice", some "hi", "text", zeroReactions,
             false, 0⟩
           none]) :=
  ⟨rfl, rfl, rfl,
   (write_failure_still_succeeds demoState aliceUser "g1" (some "hi") "m1" 0
     demoGroup rfl rfl rfl).2.1⟩

end SpokioBackend
